import Mathlib

/-!
Verification of the plate-generation service of this repository
(`geminiService`-style module: `preprocessImage`, `checkForExistingPlate`,
`verifyPlateContent`, `generatePlate`).

The TypeScript source is embedded shallowly: the pure string logic becomes
Lean functions on `String`; the external world (browser canvas, the
multimodal model endpoint) becomes explicit environment records whose fields
give the outcomes of the external calls; the async control flow of
`generatePlate` becomes a state-passing loop over an attempt counter that
additionally records the sequence of external calls it issued (the trace),
so that temporal claims about call ordering and call counts can be stated.
-/

set_option autoImplicit false

/-- Source: `const cleanText = (text) => text.replace(/[^a-zA-Z0-9]/g, '').toUpperCase();`
Deletes every character that is not an ASCII letter or digit, then uppercases. -/
def cleanText (text : String) : String :=
  String.mk ((text.toList.filter (fun c => c.isAlpha || c.isDigit)).map Char.toUpper)

/-- JavaScript `s.includes(pattern)`: `pattern` occurs contiguously inside `s`. -/
def strIncludes (s pattern : String) : Bool :=
  decide (pattern.toList <:+: s.toList)

/-- JavaScript `s.toUpperCase()` (ASCII fragment): uppercase every character. -/
def jsToUpper (s : String) : String :=
  String.mk (s.toList.map Char.toUpper)

/-- JavaScript `s.trim()`: strip leading and trailing whitespace. -/
def jsTrim (s : String) : String :=
  String.mk (((s.toList.dropWhile Char.isWhitespace).reverse.dropWhile
    Char.isWhitespace).reverse)

/-- Outcome of one call to the external multimodal model as seen by the
text-answer call sites (`checkForExistingPlate`, `verifyPlateContent`):
either the call threw (transport failure), or it succeeded with
`response.text` being absent (`none`) or a string. -/
inductive CallResult where
  | failure (msg : String)
  | success (text : Option String)
deriving DecidableEq

/-- Source: `checkForExistingPlate` (lines 71-99).  On any thrown error the
`catch` returns `false`.  On success the code runs
`const text = response.text?.trim().toUpperCase() || ''; return text.includes('YES');`.
The function is total: it never propagates an exception to its caller. -/
def checkForExistingPlate (call : CallResult) : Bool :=
  match call with
  | .failure _ => false
  | .success t => strIncludes (jsToUpper (jsTrim (t.getD ""))) "YES"

/-- Source: `verifyPlateContent` (lines 104-136).  On any thrown error the
`catch` returns `false`.  On success:
`ocrText = response.text ? cleanText(response.text) : ''`,
`expected = cleanText(expectedNumber)`, and the result is
`ocrText.includes(expected) || (expected.includes(ocrText) && ocrText.length > expected.length * 0.8)`.
The float comparison `n > m * 0.8` on the (small, exact) double values of the
two lengths coincides with the exact rational comparison `5*n > 4*m`:
`m * 0.8` never rounds across an integer for any `m` below `2^50`, so the
embedding uses the exact form. -/
def verifyPlateContent (call : CallResult) (expectedNumber : String) : Bool :=
  match call with
  | .failure _ => false
  | .success t =>
    let ocrText := cleanText (t.getD "")
    let expected := cleanText expectedNumber
    strIncludes ocrText expected ||
      (strIncludes expected ocrText && decide (5 * ocrText.length > 4 * expected.length))

/-! ## Image Normalizer (`preprocessImage`, lines 14-66)

The browser environment is an explicit record: whether `window`/`document`
exist, whether the image loads (`onload` vs `onerror`), whether
`getContext('2d')` returns a context, whether `getImageData` succeeds (CORS
can make it throw, in which case the code warns and proceeds) and with which
RGBA byte buffer, and the JPEG data URL `canvas.toDataURL` would produce. -/

/-- The external browser facilities `preprocessImage` interacts with. -/
structure BrowserEnv where
  hasSurface : Bool
  imageLoads : Bool
  hasCtx : Bool
  pixelData : Option (List Nat)
  jpegUrl : String

/-- The exact message of the rejection at line 43 of the source. -/
def transparencyMsg : String :=
  "Transparent images are not supported due to rendering bugs. Please upload an image with a solid background."

/-- Source loop (lines 41-46): `for (let i = 3; i < data.length; i += 16) if (data[i] < 250) reject(...)`.
Returns `true` when some sampled alpha byte is below 250. -/
def scanAlpha (data : List Nat) (i : Nat) : Bool :=
  if i < data.length then
    if data.getD i 0 < 250 then true else scanAlpha data (i + 16)
  else false
termination_by data.length - i
decreasing_by simp_wf; omega

/-- Result of the `preprocessImage` promise: `rejected` (the promise rejects,
so `generatePlate`'s `await` throws) or `resolved` with an image string. -/
inductive PreprocessResult where
  | rejected (msg : String)
  | resolved (image : String)
deriving DecidableEq

/-- Source: `preprocessImage` (lines 14-66).
* no `window`/`document` → resolve with the input unchanged (line 16-18);
* `onerror` → resolve with the input unchanged (lines 59-62);
* `getContext` returns null → resolve with the input unchanged (lines 30-33);
* `getImageData` throws (CORS) → warn and fall through to the JPEG re-encode
  (lines 47-49);
* otherwise scan the alpha bytes at stride 16 starting at index 3 and reject
  with `transparencyMsg` when one is below 250 (lines 41-46), else resolve
  with the JPEG re-encoding (lines 51-52). -/
def preprocessImage (env : BrowserEnv) (base64Str : String) : PreprocessResult :=
  if env.hasSurface = false then .resolved base64Str
  else if env.imageLoads = false then .resolved base64Str
  else if env.hasCtx = false then .resolved base64Str
  else
    match env.pixelData with
    | some data =>
      if scanAlpha data 3 then .rejected transparencyMsg
      else .resolved env.jpegUrl
    | none => .resolved env.jpegUrl

example : cleanText "abc-1234" = "ABC1234" := by decide
example : verifyPlateContent (.success (some "abc-1234")) "ABC1234" = true := by decide
example : verifyPlateContent (.success (some "AB1234")) "ABC1234" = false := by decide
example : verifyPlateContent (.success (some "ABCD")) "ABCDE" = false := by decide
example : verifyPlateContent (.success (some "ABC123")) "ABC1234" = true := by decide
example : verifyPlateContent (.success (some "xABC 1234y")) "ABC1234" = true := by decide
example : checkForExistingPlate (.success (some "  yes, there is ")) = true := by decide
example : checkForExistingPlate (.success (some "NO")) = false := by decide
example : checkForExistingPlate (.success none) = false := by decide
example : checkForExistingPlate (.failure "net down") = false := by decide

/-! ## Generation Orchestrator (`generatePlate`, lines 141-244)

The external generation model is an oracle `genCall : Nat → GenCallOutcome`
giving, for each attempt number, either the exception the awaited call threw
or the parts of the response (`response.candidates?.[0]?.content?.parts`,
which may be absent).  `verifyResult : String → Bool` gives the boolean the
(never-throwing) `verifyPlateContent` call returns for a produced image URL.
The orchestrator additionally records a trace of the external calls it
issues, so call-ordering and call-counting claims can be stated. -/

/-- One `inlineData` payload of a response part. -/
structure InlineData where
  data : String
  mimeType : String
deriving DecidableEq

/-- One part of the model response content. -/
structure ResponsePart where
  inlineData : Option InlineData
deriving DecidableEq

/-- Outcome of the generation-model call of one attempt. -/
inductive GenCallOutcome where
  | thrown (msg : String)
  | response (parts : Option (List ResponsePart))
deriving DecidableEq

/-- Source lines 206-216: walk the parts and take the first one with a
truthy `inlineData.data`, producing `data:image/png;base64,` + data (the
media type is hard-coded to `image/png`, ignoring `inlineData.mimeType`). -/
def extractInlineImage : List ResponsePart → Option String
  | [] => none
  | p :: rest =>
    match p.inlineData with
    | some d => if d.data = "" then extractInlineImage rest
                else some ("data:image/png;base64," ++ d.data)
    | none => extractInlineImage rest

/-- The `'add' | 'replace'` mode parameter. -/
inductive Mode where
  | add
  | replace
deriving DecidableEq

/-- The external world one `generatePlate` invocation interacts with. -/
structure GenEnv where
  hasApiKey : Bool
  preprocessResult : PreprocessResult
  plateDetected : Bool
  genCall : Nat → GenCallOutcome
  verifyResult : String → Bool

/-- External calls issued by `generatePlate`, tagged with the attempt number
for the in-loop calls. -/
inductive Event where
  | detectCall
  | generateCall (attempt : Nat)
  | verifyCall (attempt : Nat)
deriving DecidableEq

/-- Terminal outcome of `generatePlate`; each constructor is one exit point
of the source: `image` (lines 228 and 240), `missingKey` (line 150),
`preprocessError` (propagated rejection of line 154's `await`),
`needsConfirmation` (line 161, message `PLATE_DETECTED_CONFIRMATION`),
`exhausted` (line 243). -/
inductive GenResult where
  | image (url : String)
  | missingKey
  | preprocessError (msg : String)
  | needsConfirmation
  | exhausted (msg : String)
deriving DecidableEq

/-- Source line 165. -/
def MAX_RETRIES : Nat := 4

/-- Source lines 239-243: after the loop, return `lastGeneratedImage` when
one was stored, else `throw new Error(lastError?.message || "Failed to generate valid image after multiple attempts")`.
JavaScript `||` takes the generic message when the captured message is the
empty string. -/
def afterLoop (lastImg lastErr : Option String) : GenResult :=
  match lastImg with
  | some url => .image url
  | none =>
    .exhausted
      (match lastErr with
       | some m => if m = "" then "Failed to generate valid image after multiple attempts" else m
       | none => "Failed to generate valid image after multiple attempts")

/-- Source lines 172-237, as structural recursion on the number of remaining
attempts (`remaining` starts at `MAX_RETRIES`, `attempt` at 1).  Each
iteration: issue the generation call; on a thrown error store it in
`lastError` and continue; when no inline image is in the response the code
throws `"No image was returned by the model."` into the same `catch`
(lines 218-220); when an image is extracted store it in
`lastGeneratedImage`, run verification, return the image on success, and
continue on failure. -/
def attemptLoop (env : GenEnv) :
    Nat → Nat → Option String → Option String → GenResult × List Event
  | 0, _, lastImg, lastErr => (afterLoop lastImg lastErr, [])
  | remaining + 1, attempt, lastImg, lastErr =>
    match env.genCall attempt with
    | .thrown msg =>
      ((attemptLoop env remaining (attempt + 1) lastImg (some msg)).1,
        .generateCall attempt ::
          (attemptLoop env remaining (attempt + 1) lastImg (some msg)).2)
    | .response parts =>
      match extractInlineImage (parts.getD []) with
      | none =>
        ((attemptLoop env remaining (attempt + 1) lastImg
            (some "No image was returned by the model.")).1,
          .generateCall attempt ::
            (attemptLoop env remaining (attempt + 1) lastImg
              (some "No image was returned by the model.")).2)
      | some url =>
        if env.verifyResult url then
          (.image url, [.generateCall attempt, .verifyCall attempt])
        else
          ((attemptLoop env remaining (attempt + 1) (some url) lastErr).1,
            .generateCall attempt :: .verifyCall attempt ::
              (attemptLoop env remaining (attempt + 1) (some url) lastErr).2)

/-- Source `generatePlate` (lines 141-244): missing API key check (149-151),
awaited preprocessing (154), conditional detection in `add` mode with
`skipDetection` false (157-163), then the bounded retry loop. -/
def generatePlate (env : GenEnv) (mode : Mode) (skipDetection : Bool) :
    GenResult × List Event :=
  if env.hasApiKey = false then (.missingKey, [])
  else
    match env.preprocessResult with
    | .rejected msg => (.preprocessError msg, [])
    | .resolved _ =>
      if mode = Mode.add ∧ skipDetection = false then
        if env.plateDetected then (.needsConfirmation, [.detectCall])
        else
          ((attemptLoop env MAX_RETRIES 1 none none).1,
            .detectCall :: (attemptLoop env MAX_RETRIES 1 none none).2)
      else attemptLoop env MAX_RETRIES 1 none none

/-- The image attempt `k` produces: `none` when the call threw or the
response held no inline image. -/
def attemptProduces (env : GenEnv) (k : Nat) : Option String :=
  match env.genCall k with
  | .thrown _ => none
  | .response parts => extractInlineImage (parts.getD [])

/-- Attempt `k` does not end the loop: it produces no image, or its image
fails verification. -/
def attemptFailed (env : GenEnv) (k : Nat) : Bool :=
  match attemptProduces env k with
  | none => true
  | some url => !env.verifyResult url

/-- The error message attempt `k` stores into `lastError` when it produces
no image. -/
def attemptErrorMsg (env : GenEnv) (k : Nat) : Option String :=
  match env.genCall k with
  | .thrown msg => some msg
  | .response parts =>
    match extractInlineImage (parts.getD []) with
    | none => some "No image was returned by the model."
    | some _ => none

/-- The run stops at the detection gate: `add` mode, detection not skipped,
and an existing plate reported. -/
def detectionAborts (env : GenEnv) (mode : Mode) (skipDetection : Bool) : Bool :=
  decide (mode = Mode.add ∧ skipDetection = false) && env.plateDetected

/-- Attempt number an event belongs to (0 for the detection call). -/
def eventAttempt : Event → Nat
  | .detectCall => 0
  | .generateCall k => k
  | .verifyCall k => k

/-- Number of generation-model calls in a trace. -/
def countGenerateCalls (evs : List Event) : Nat :=
  (evs.filter (fun e => match e with | .generateCall _ => true | _ => false)).length

/-! ## Lemmas about the alpha scan -/

/-- Fuel-indexed characterization of the sampling loop: starting at index
`i`, it finds a low alpha byte exactly when some index `j ≥ i` congruent to
`i` modulo the stride 16 holds a byte below 250. -/
lemma scanAlpha_iff_aux (data : List Nat) :
    ∀ n i, data.length - i ≤ n →
      (scanAlpha data i = true ↔
        ∃ j, i ≤ j ∧ j < data.length ∧ (j - i) % 16 = 0 ∧ data.getD j 0 < 250) := by
  intro n
  induction n with
  | zero =>
    intro i hi
    rw [scanAlpha]
    have hnot : ¬ i < data.length := by omega
    simp only [hnot, if_false]
    constructor
    · intro h; cases h
    · rintro ⟨j, h1, h2, -, -⟩; omega
  | succ n ih =>
    intro i hi
    rw [scanAlpha]
    by_cases hlt : i < data.length
    · simp only [hlt, if_true]
      by_cases hlow : data.getD i 0 < 250
      · simp only [hlow, if_true]
        constructor
        · intro _; exact ⟨i, Nat.le_refl i, hlt, by simp, hlow⟩
        · intro _; trivial
      · simp only [hlow, if_false]
        rw [ih (i + 16) (by omega)]
        constructor
        · rintro ⟨j, h1, h2, h3, h4⟩
          exact ⟨j, by omega, h2, by omega, h4⟩
        · rintro ⟨j, h1, h2, h3, h4⟩
          have hne : j ≠ i := by
            intro h; rw [h] at h4; exact hlow h4
          exact ⟨j, by omega, h2, by omega, h4⟩
    · simp only [hlt, if_false]
      constructor
      · intro h; cases h
      · rintro ⟨j, h1, h2, -, -⟩; omega

/-- The scan as started by the source (index 3): a low byte is found exactly
at an index `j` with `j % 16 = 3`, i.e. every 16th byte starting at 3. -/
lemma scanAlpha_three_iff (data : List Nat) :
    scanAlpha data 3 = true ↔
      ∃ j, j < data.length ∧ j % 16 = 3 ∧ data.getD j 0 < 250 := by
  rw [scanAlpha_iff_aux data (data.length) 3 (by omega)]
  constructor
  · rintro ⟨j, h1, h2, h3, h4⟩
    exact ⟨j, h2, by omega, h4⟩
  · rintro ⟨j, h2, h3, h4⟩
    exact ⟨j, by omega, h2, by omega, h4⟩

/-- C4: with a rendering surface, a loaded image, a context and an
accessible pixel buffer, `preprocessImage` rejects with the transparency
error exactly when some sampled alpha byte (indices 3, 19, 35, …, i.e.
every 16th byte starting at 3) is strictly below 250; and with no rendering
surface it resolves with its input unchanged. -/
theorem claim_C4_transparency_rule :
    (∀ (env : BrowserEnv) (s : String) (data : List Nat),
      env.hasSurface = true → env.imageLoads = true → env.hasCtx = true →
      env.pixelData = some data →
      (preprocessImage env s = .rejected transparencyMsg ↔
        ∃ j, j < data.length ∧ j % 16 = 3 ∧ data.getD j 0 < 250)) ∧
    (∀ (env : BrowserEnv) (s : String),
      env.hasSurface = false → preprocessImage env s = .resolved s) := by
  constructor
  · intro env s data h1 h2 h3 h4
    rw [← scanAlpha_three_iff data]
    unfold preprocessImage
    rw [h1, h2, h3, h4]
    simp only [Bool.true_eq_false, if_false]
    by_cases hscan : scanAlpha data 3 = true
    · simp [hscan]
    · simp [hscan]
  · intro env s h
    unfold preprocessImage
    rw [h]
    simp

/-- A browser environment with an accessible buffer whose sampled alpha byte
at index 3 is 100. -/
def envC4a : BrowserEnv := ⟨true, true, true, some [10, 20, 30, 100], "data:image/jpeg;base64,J"⟩

/-- A browser environment with no rendering surface. -/
def envC4b : BrowserEnv := ⟨false, true, true, none, "data:image/jpeg;base64,J"⟩

/-- Witness for C4 at concrete environments. -/
theorem claim_C4_transparency_rule_witness :
    preprocessImage envC4a "orig" = .rejected transparencyMsg ∧
    preprocessImage envC4b "orig" = .resolved "orig" :=
  ⟨(claim_C4_transparency_rule.1 envC4a "orig" [10, 20, 30, 100] rfl rfl rfl rfl).mpr
      ⟨3, by decide⟩,
    claim_C4_transparency_rule.2 envC4b "orig" rfl⟩

/-! ## Step lemmas for the retry loop -/

/-- One loop iteration whose attempt produces no image: the error message is
stored and the loop moves on to the next attempt. -/
lemma attemptLoop_step_none (env : GenEnv) (r a : Nat) (li le : Option String)
    (h : attemptProduces env a = none) :
    attemptLoop env (r + 1) a li le =
      ((attemptLoop env r (a + 1) li (attemptErrorMsg env a)).1,
        Event.generateCall a ::
          (attemptLoop env r (a + 1) li (attemptErrorMsg env a)).2) := by
  unfold attemptProduces at h
  unfold attemptErrorMsg
  cases hg : env.genCall a with
  | thrown m => simp [attemptLoop, hg]
  | response p =>
    rw [hg] at h
    dsimp only at h
    simp [attemptLoop, hg, h]

/-- One loop iteration whose attempt produces a verified image: the loop
returns that image at once, having issued only this attempt's two calls. -/
lemma attemptLoop_step_verified (env : GenEnv) (r a : Nat) (li le : Option String)
    (u : String) (h : attemptProduces env a = some u)
    (hv : env.verifyResult u = true) :
    attemptLoop env (r + 1) a li le =
      (.image u, [Event.generateCall a, Event.verifyCall a]) := by
  unfold attemptProduces at h
  cases hg : env.genCall a with
  | thrown m => rw [hg] at h; cases h
  | response p =>
    rw [hg] at h
    dsimp only at h
    simp [attemptLoop, hg, h, hv]

/-- One loop iteration whose attempt produces an image that fails
verification: the image is stored as the fallback and the loop moves on. -/
lemma attemptLoop_step_unverified (env : GenEnv) (r a : Nat) (li le : Option String)
    (u : String) (h : attemptProduces env a = some u)
    (hv : env.verifyResult u = false) :
    attemptLoop env (r + 1) a li le =
      ((attemptLoop env r (a + 1) (some u) le).1,
        Event.generateCall a :: Event.verifyCall a ::
          (attemptLoop env r (a + 1) (some u) le).2) := by
  unfold attemptProduces at h
  cases hg : env.genCall a with
  | thrown m => rw [hg] at h; cases h
  | response p =>
    rw [hg] at h
    dsimp only at h
    simp [attemptLoop, hg, h, hv]

/-- The exhausted loop hands the final state to `afterLoop`. -/
lemma attemptLoop_zero (env : GenEnv) (a : Nat) (li le : Option String) :
    attemptLoop env 0 a li le = (afterLoop li le, []) := rfl

/-- When the key is present, preprocessing resolved and the detection gate
does not abort, `generatePlate` runs the retry loop; its trace is the loop
trace, with the detection call prepended exactly when detection ran. -/
lemma generatePlate_runs_loop (env : GenEnv) (mode : Mode) (skipDetection : Bool)
    (s : String) (hkey : env.hasApiKey = true)
    (hpre : env.preprocessResult = .resolved s)
    (habort : detectionAborts env mode skipDetection = false) :
    (generatePlate env mode skipDetection).1 = (attemptLoop env MAX_RETRIES 1 none none).1 ∧
    ((generatePlate env mode skipDetection).2 = (attemptLoop env MAX_RETRIES 1 none none).2 ∨
      (generatePlate env mode skipDetection).2 =
        Event.detectCall :: (attemptLoop env MAX_RETRIES 1 none none).2) := by
  unfold generatePlate
  rw [hkey, hpre]
  by_cases hm : mode = Mode.add ∧ skipDetection = false
  · have hd : env.plateDetected = false := by
      unfold detectionAborts at habort
      rcases hdet : env.plateDetected with _ | _
      · rfl
      · rw [hdet] at habort; simp [hm] at habort
    simp [hm, hd]
  · simp [hm]

lemma countGenerateCalls_nil : countGenerateCalls [] = 0 := rfl

lemma countGenerateCalls_gen (a : Nat) (l : List Event) :
    countGenerateCalls (Event.generateCall a :: l) = countGenerateCalls l + 1 := by
  simp [countGenerateCalls]

lemma countGenerateCalls_verify (a : Nat) (l : List Event) :
    countGenerateCalls (Event.verifyCall a :: l) = countGenerateCalls l := by
  simp [countGenerateCalls]

lemma countGenerateCalls_detect (l : List Event) :
    countGenerateCalls (Event.detectCall :: l) = countGenerateCalls l := by
  simp [countGenerateCalls]

/-- The loop issues at most one generation call per remaining attempt. -/
lemma countGenerateCalls_attemptLoop (env : GenEnv) :
    ∀ r a (li le : Option String),
      countGenerateCalls (attemptLoop env r a li le).2 ≤ r := by
  intro r
  induction r with
  | zero => intro a li le; simp [attemptLoop_zero, countGenerateCalls_nil]
  | succ n ih =>
    intro a li le
    cases hp : attemptProduces env a with
    | none =>
      rw [attemptLoop_step_none env n a li le hp]
      simp only [countGenerateCalls_gen]
      have := ih (a + 1) li (attemptErrorMsg env a)
      omega
    | some u =>
      cases hv : env.verifyResult u with
      | true =>
        rw [attemptLoop_step_verified env n a li le u hp hv]
        simp [countGenerateCalls_gen, countGenerateCalls_verify, countGenerateCalls_nil]
      | false =>
        rw [attemptLoop_step_unverified env n a li le u hp hv]
        simp only [countGenerateCalls_gen, countGenerateCalls_verify]
        have := ih (a + 1) (some u) le
        omega

/-- Every event of the loop belongs to an attempt numbered below
`attempt + remaining`. -/
lemma attemptLoop_events_lt (env : GenEnv) :
    ∀ r a (li le : Option String),
      ∀ e ∈ (attemptLoop env r a li le).2, eventAttempt e < a + r := by
  intro r
  induction r with
  | zero => intro a li le e he; rw [attemptLoop_zero] at he; cases he
  | succ n ih =>
    intro a li le e he
    cases hp : attemptProduces env a with
    | none =>
      rw [attemptLoop_step_none env n a li le hp, List.mem_cons] at he
      rcases he with rfl | he
      · simp only [eventAttempt]; omega
      · have := ih (a + 1) li (attemptErrorMsg env a) e he
        omega
    | some u =>
      cases hv : env.verifyResult u with
      | true =>
        rw [attemptLoop_step_verified env n a li le u hp hv] at he
        simp only [List.mem_cons, List.not_mem_nil, or_false] at he
        rcases he with rfl | rfl
        · simp only [eventAttempt]; omega
        · simp only [eventAttempt]; omega
      | false =>
        rw [attemptLoop_step_unverified env n a li le u hp hv] at he
        simp only [List.mem_cons] at he
        rcases he with rfl | rfl | he
        · simp only [eventAttempt]; omega
        · simp only [eventAttempt]; omega
        · have := ih (a + 1) (some u) le e he
          omega

/-- If every attempt in `[a, k)` fails and attempt `k` (within range)
produces a verified image, the loop returns that image and issues no call
belonging to an attempt after `k`. -/
lemma attemptLoop_first_success (env : GenEnv) (k : Nat) (u : String)
    (hk : attemptProduces env k = some u) (hv : env.verifyResult u = true) :
    ∀ r a (li le : Option String), a ≤ k → k < a + r →
      (∀ j, a ≤ j → j < k → attemptFailed env j = true) →
      (attemptLoop env r a li le).1 = .image u ∧
        ∀ e ∈ (attemptLoop env r a li le).2, eventAttempt e ≤ k := by
  intro r
  induction r with
  | zero => intro a li le h1 h2 _; omega
  | succ n ih =>
    intro a li le h1 h2 hfail
    rcases Nat.eq_or_lt_of_le h1 with he | hlt
    · subst he
      rw [attemptLoop_step_verified env n a li le u hk hv]
      refine ⟨rfl, ?_⟩
      intro e hmem
      simp only [List.mem_cons, List.not_mem_nil, or_false] at hmem
      rcases hmem with rfl | rfl
      · simp only [eventAttempt]; omega
      · simp only [eventAttempt]; omega
    · have hf := hfail a (Nat.le_refl a) hlt
      unfold attemptFailed at hf
      cases hp : attemptProduces env a with
      | none =>
        rw [attemptLoop_step_none env n a li le hp]
        obtain ⟨ihr, ihe⟩ :=
          ih (a + 1) li (attemptErrorMsg env a) hlt (by omega)
            (fun j hj1 hj2 => hfail j (by omega) hj2)
        refine ⟨ihr, ?_⟩
        intro e hmem
        simp only [List.mem_cons] at hmem
        rcases hmem with rfl | hmem
        · simp only [eventAttempt]; omega
        · exact ihe e hmem
      | some w =>
        rw [hp] at hf
        dsimp only at hf
        have hw : env.verifyResult w = false := by
          cases hvw : env.verifyResult w
          · rfl
          · rw [hvw] at hf; simp at hf
        rw [attemptLoop_step_unverified env n a li le w hp hw]
        obtain ⟨ihr, ihe⟩ :=
          ih (a + 1) (some w) le hlt (by omega)
            (fun j hj1 hj2 => hfail j (by omega) hj2)
        refine ⟨ihr, ?_⟩
        intro e hmem
        simp only [List.mem_cons] at hmem
        rcases hmem with rfl | rfl | hmem
        · simp only [eventAttempt]; omega
        · simp only [eventAttempt]; omega
        · exact ihe e hmem

/-- Every image the part walk extracts carries the hard-coded
`data:image/png;base64,` media-type prefix. -/
lemma extractInlineImage_shape :
    ∀ (parts : List ResponsePart) (u : String),
      extractInlineImage parts = some u →
      ∃ rest, u = "data:image/png;base64," ++ rest := by
  intro parts
  induction parts with
  | nil => intro u h; cases h
  | cons p rest ih =>
    intro u h
    unfold extractInlineImage at h
    cases hp : p.inlineData with
    | none => rw [hp] at h; dsimp only at h; exact ih u h
    | some d =>
      rw [hp] at h
      dsimp only at h
      by_cases hd : d.data = ""
      · rw [if_pos hd] at h; exact ih u h
      · rw [if_neg hd] at h
        exact ⟨d.data, (Option.some_injective _ h).symm⟩

/-- Every image the loop returns — fresh or stored fallback — has the
hard-coded PNG prefix, provided the incoming fallback does. -/
lemma attemptLoop_image_shape (env : GenEnv) :
    ∀ r a (li le : Option String),
      (∀ v, li = some v → ∃ rest, v = "data:image/png;base64," ++ rest) →
      ∀ u, (attemptLoop env r a li le).1 = .image u →
        ∃ rest, u = "data:image/png;base64," ++ rest := by
  intro r
  induction r with
  | zero =>
    intro a li le hli u h
    rw [attemptLoop_zero] at h
    unfold afterLoop at h
    cases hl : li with
    | none => rw [hl] at h; dsimp only at h; cases h
    | some v =>
      rw [hl] at h; dsimp only at h
      cases h
      exact hli u hl
  | succ n ih =>
    intro a li le hli u h
    have hprod : ∀ w, attemptProduces env a = some w →
        ∃ rest, w = "data:image/png;base64," ++ rest := by
      intro w hw
      unfold attemptProduces at hw
      cases hg : env.genCall a with
      | thrown m => rw [hg] at hw; cases hw
      | response p =>
        rw [hg] at hw; dsimp only at hw
        exact extractInlineImage_shape (p.getD []) w hw
    cases hp : attemptProduces env a with
    | none =>
      rw [attemptLoop_step_none env n a li le hp] at h
      exact ih (a + 1) li (attemptErrorMsg env a) hli u h
    | some w =>
      cases hv : env.verifyResult w with
      | true =>
        rw [attemptLoop_step_verified env n a li le w hp hv] at h
        dsimp only at h
        cases h
        exact hprod u hp
      | false =>
        rw [attemptLoop_step_unverified env n a li le w hp hv] at h
        refine ih (a + 1) (some w) le ?_ u h
        intro v hv2
        cases hv2
        exact hprod w hp

/-- If every attempt in range produces an image that fails verification, the
loop falls through and returns the image of the **last** attempt. -/
lemma attemptLoop_all_unverified (env : GenEnv) (us : Nat → String) :
    ∀ r a (li le : Option String), 1 ≤ r →
      (∀ j, a ≤ j → j < a + r →
        attemptProduces env j = some (us j) ∧ env.verifyResult (us j) = false) →
      (attemptLoop env r a li le).1 = .image (us (a + r - 1)) := by
  intro r
  induction r with
  | zero => intro a li le h1 _; omega
  | succ n ih =>
    intro a li le _ hall
    obtain ⟨hp, hv⟩ := hall a (Nat.le_refl a) (by omega)
    rw [attemptLoop_step_unverified env n a li le (us a) hp hv]
    dsimp only
    rcases Nat.eq_zero_or_pos n with hn | hn
    · subst hn
      have harg : a + 1 - 1 = a := by omega
      rw [harg, attemptLoop_zero]
      rfl
    · have harg : a + (n + 1) - 1 = (a + 1) + n - 1 := by omega
      rw [harg]
      exact ih (a + 1) (some (us a)) le hn
        (fun j hj1 hj2 => hall j (by omega) (by omega))

/-- If every attempt in range produces no image, the loop falls through with
no fallback stored and with `lastError` holding the last attempt's error. -/
lemma attemptLoop_all_none (env : GenEnv) :
    ∀ r a (li le : Option String), 1 ≤ r →
      (∀ j, a ≤ j → j < a + r → attemptProduces env j = none) →
      (attemptLoop env r a li le).1 = afterLoop li (attemptErrorMsg env (a + r - 1)) := by
  intro r
  induction r with
  | zero => intro a li le h1 _; omega
  | succ n ih =>
    intro a li le _ hall
    rw [attemptLoop_step_none env n a li le (hall a (Nat.le_refl a) (by omega))]
    dsimp only
    rcases Nat.eq_zero_or_pos n with hn | hn
    · subst hn
      have harg : a + 1 - 1 = a := by omega
      rw [harg, attemptLoop_zero]
    · have harg : a + (n + 1) - 1 = (a + 1) + n - 1 := by omega
      rw [harg]
      exact ih (a + 1) li (attemptErrorMsg env a) hn
        (fun j hj1 hj2 => hall j (by omega) (by omega))

/-- The trace of `generatePlate` is empty (early exits), the lone detection
call, the loop trace, or the detection call followed by the loop trace. -/
lemma generatePlate_trace_cases (env : GenEnv) (mode : Mode) (skipDetection : Bool) :
    (generatePlate env mode skipDetection).2 = [] ∨
    (generatePlate env mode skipDetection).2 = [Event.detectCall] ∨
    (generatePlate env mode skipDetection).2 = (attemptLoop env MAX_RETRIES 1 none none).2 ∨
    (generatePlate env mode skipDetection).2 =
      Event.detectCall :: (attemptLoop env MAX_RETRIES 1 none none).2 := by
  unfold generatePlate
  by_cases h1 : env.hasApiKey = false
  · rw [if_pos h1]; left; rfl
  · rw [if_neg h1]
    cases hp : env.preprocessResult with
    | rejected m => left; rfl
    | resolved s =>
      by_cases h2 : mode = Mode.add ∧ skipDetection = false
      · rw [if_pos h2]
        by_cases hd : env.plateDetected = true
        · rw [if_pos hd]; right; left; rfl
        · rw [if_neg hd]; right; right; right; rfl
      · rw [if_neg h2]; right; right; left; rfl

/-- The result of `generatePlate` is an early-exit value or the loop's. -/
lemma generatePlate_fst_cases (env : GenEnv) (mode : Mode) (skipDetection : Bool) :
    (generatePlate env mode skipDetection).1 = (attemptLoop env MAX_RETRIES 1 none none).1 ∨
    (generatePlate env mode skipDetection).1 = .missingKey ∨
    (∃ m, (generatePlate env mode skipDetection).1 = .preprocessError m) ∨
    (generatePlate env mode skipDetection).1 = .needsConfirmation := by
  unfold generatePlate
  by_cases h1 : env.hasApiKey = false
  · rw [if_pos h1]; right; left; rfl
  · rw [if_neg h1]
    cases hp : env.preprocessResult with
    | rejected m => right; right; left; exact ⟨m, rfl⟩
    | resolved s =>
      by_cases h2 : mode = Mode.add ∧ skipDetection = false
      · rw [if_pos h2]
        by_cases hd : env.plateDetected = true
        · rw [if_pos hd]; right; right; right; rfl
        · rw [if_neg hd]; left; rfl
      · rw [if_neg h2]; left; rfl

/-- C2: when all 4 attempts produce an image and every verification returns
false, `generatePlate` returns the image of the last attempt (attempt 4). -/
theorem claim_C2_returns_last_attempt_image (env : GenEnv) (mode : Mode)
    (skipDetection : Bool) (s : String) (us : Nat → String)
    (hkey : env.hasApiKey = true)
    (hpre : env.preprocessResult = .resolved s)
    (habort : detectionAborts env mode skipDetection = false)
    (hall : ∀ k, 1 ≤ k → k ≤ 4 →
      attemptProduces env k = some (us k) ∧ env.verifyResult (us k) = false) :
    (generatePlate env mode skipDetection).1 = .image (us 4) := by
  obtain ⟨h1, -⟩ := generatePlate_runs_loop env mode skipDetection s hkey hpre habort
  rw [h1]
  unfold MAX_RETRIES
  have := attemptLoop_all_unverified env us 4 1 none none (by omega)
    (fun j hj1 hj2 => hall j hj1 (by omega))
  rw [this]

/-- A response part holding inline data. -/
def partWith (d : String) : ResponsePart := ⟨some ⟨d, "image/jpeg"⟩⟩

/-- All four attempts produce an image (attempt 4 a distinct one); every
verification fails. -/
def envC2 : GenEnv :=
  ⟨true, .resolved "img", false,
    fun k => .response (some [partWith (if k = 4 then "LAST" else "EARLY")]),
    fun _ => false⟩

/-- Witness for C2: the fallback is attempt 4's image, not an earlier one. -/
theorem claim_C2_returns_last_attempt_image_witness :
    (generatePlate envC2 Mode.replace true).1 = .image "data:image/png;base64,LAST" :=
  claim_C2_returns_last_attempt_image envC2 Mode.replace true "img"
    (fun k => "data:image/png;base64," ++ (if k = 4 then "LAST" else "EARLY"))
    rfl rfl rfl
    (by intro k h1 h2; interval_cases k <;> exact ⟨rfl, rfl⟩)

/-- C3: in ADD mode with detection enabled and a plate detected,
`generatePlate` terminates with the confirmation signal
(`PLATE_DETECTED_CONFIRMATION`, line 161) having issued only the detection
call — no generation-model call precedes the termination. -/
theorem claim_C3_detection_precedes_generation (env : GenEnv) (s : String)
    (hkey : env.hasApiKey = true)
    (hpre : env.preprocessResult = .resolved s)
    (hdet : env.plateDetected = true) :
    generatePlate env Mode.add false = (.needsConfirmation, [Event.detectCall]) ∧
    ∀ k, Event.generateCall k ∉ (generatePlate env Mode.add false).2 := by
  have hmain : generatePlate env Mode.add false = (.needsConfirmation, [Event.detectCall]) := by
    unfold generatePlate
    rw [hkey, hpre]
    simp [hdet]
  refine ⟨hmain, ?_⟩
  intro k hmem
  rw [hmain] at hmem
  simp at hmem

/-- Detection reports an existing plate. -/
def envC3 : GenEnv :=
  ⟨true, .resolved "img", true, fun _ => .response (some [partWith "X"]), fun _ => true⟩

/-- Witness for C3 at a concrete environment. -/
theorem claim_C3_detection_precedes_generation_witness :
    generatePlate envC3 Mode.add false = (.needsConfirmation, [Event.detectCall]) :=
  (claim_C3_detection_precedes_generation envC3 "img" rfl rfl rfl).1

/-- C6: no invocation of `generatePlate` issues more than `MAX_RETRIES = 4`
generation-model calls, and every generation call belongs to an attempt
numbered at most 4 — there is no fifth attempt on any path. -/
theorem claim_C6_at_most_four_generation_calls (env : GenEnv) (mode : Mode)
    (skipDetection : Bool) :
    countGenerateCalls (generatePlate env mode skipDetection).2 ≤ 4 ∧
    ∀ k, Event.generateCall k ∈ (generatePlate env mode skipDetection).2 → k ≤ 4 := by
  have hc := countGenerateCalls_attemptLoop env MAX_RETRIES 1 none none
  have hev := attemptLoop_events_lt env MAX_RETRIES 1 none none
  unfold MAX_RETRIES at hc hev
  rcases generatePlate_trace_cases env mode skipDetection with h | h | h | h <;> rw [h]
  · exact ⟨by simp [countGenerateCalls_nil], by simp⟩
  · constructor
    · rw [countGenerateCalls_detect, countGenerateCalls_nil]; omega
    · intro k hmem; simp at hmem
  · unfold MAX_RETRIES
    refine ⟨hc, ?_⟩
    intro k hmem
    have := hev (Event.generateCall k) hmem
    simp only [eventAttempt] at this
    omega
  · unfold MAX_RETRIES
    constructor
    · rw [countGenerateCalls_detect]
      exact hc
    · intro k hmem
      rw [List.mem_cons] at hmem
      rcases hmem with hmem | hmem
      · cases hmem
      · have := hev (Event.generateCall k) hmem
        simp only [eventAttempt] at this
        omega

/-- All four attempts throw an error whose message is the empty string. -/
def envC5x : GenEnv :=
  ⟨true, .resolved "img", false, fun _ => .thrown "", fun _ => false⟩

/-- Counterexample for C5 as stated: with every attempt throwing an error
whose message is the empty string, an error *was* captured (its message is
`""`), yet the raised error carries the generic message, not the captured
one — JavaScript `lastError?.message || generic` discards a falsy (empty)
message. -/
theorem claim_C5_counterexample :
    (generatePlate envC5x Mode.replace true).1 =
      .exhausted "Failed to generate valid image after multiple attempts" ∧
    attemptErrorMsg envC5x 4 = some "" ∧
    "Failed to generate valid image after multiple attempts" ≠ "" := by
  refine ⟨by decide, rfl, by decide⟩

/-- C5 (amended): when no attempt produces any image, `generatePlate`
raises the exhausted-retries error; its message is the last captured
per-attempt error's message when that message is nonempty, and the generic
`"Failed to generate valid image after multiple attempts"` otherwise.  It
never returns an image in this case. -/
theorem claim_C5_exhausted_error (env : GenEnv) (mode : Mode)
    (skipDetection : Bool) (s : String) (m : String)
    (hkey : env.hasApiKey = true)
    (hpre : env.preprocessResult = .resolved s)
    (habort : detectionAborts env mode skipDetection = false)
    (hnone : ∀ k, 1 ≤ k → k ≤ 4 → attemptProduces env k = none)
    (hmsg : attemptErrorMsg env 4 = some m) :
    (generatePlate env mode skipDetection).1 =
      .exhausted (if m = "" then "Failed to generate valid image after multiple attempts" else m) ∧
    ∀ u, (generatePlate env mode skipDetection).1 ≠ .image u := by
  obtain ⟨h1, -⟩ := generatePlate_runs_loop env mode skipDetection s hkey hpre habort
  have hmain : (generatePlate env mode skipDetection).1 =
      .exhausted (if m = "" then "Failed to generate valid image after multiple attempts" else m) := by
    rw [h1]
    unfold MAX_RETRIES
    have := attemptLoop_all_none env 4 1 none none (by omega)
      (fun j hj1 hj2 => hnone j hj1 (by omega))
    rw [this]
    show afterLoop none (attemptErrorMsg env 4) = _
    rw [hmsg]
    rfl
  refine ⟨hmain, ?_⟩
  intro u hu
  rw [hmain] at hu
  cases hu

/-- Attempt `k` throws an error with message `errork`. -/
def envC5w : GenEnv :=
  ⟨true, .resolved "img", false, fun k => .thrown ("error" ++ toString k), fun _ => false⟩

/-- Witness for C5 (amended) at a concrete environment: the raised message
is attempt 4's captured error message. -/
theorem claim_C5_exhausted_error_witness :
    (generatePlate envC5w Mode.replace true).1 = .exhausted "error4" :=
  (claim_C5_exhausted_error envC5w Mode.replace true "img" "error4"
    rfl rfl rfl (fun _ _ _ => rfl) (by decide)).1

/-- C7: when the attempts before `k` all fail and attempt `k` produces an
image that verifies, `generatePlate` returns that image and issues no
generation or verification call for any attempt after `k`. -/
theorem claim_C7_short_circuit_on_success (env : GenEnv) (mode : Mode)
    (skipDetection : Bool) (s : String) (k : Nat) (u : String)
    (hkey : env.hasApiKey = true)
    (hpre : env.preprocessResult = .resolved s)
    (habort : detectionAborts env mode skipDetection = false)
    (hk1 : 1 ≤ k) (hk4 : k ≤ 4)
    (hfail : ∀ j, 1 ≤ j → j < k → attemptFailed env j = true)
    (hprod : attemptProduces env k = some u)
    (hver : env.verifyResult u = true) :
    (generatePlate env mode skipDetection).1 = .image u ∧
    ∀ e ∈ (generatePlate env mode skipDetection).2, eventAttempt e ≤ k := by
  obtain ⟨h1, h2⟩ := generatePlate_runs_loop env mode skipDetection s hkey hpre habort
  obtain ⟨hr, he⟩ := attemptLoop_first_success env k u hprod hver MAX_RETRIES 1 none none
    hk1 (by unfold MAX_RETRIES; omega) hfail
  refine ⟨by rw [h1]; exact hr, ?_⟩
  intro e hmem
  rcases h2 with h2 | h2
  · rw [h2] at hmem
    exact he e hmem
  · rw [h2, List.mem_cons] at hmem
    rcases hmem with rfl | hmem
    · simp only [eventAttempt]; omega
    · exact he e hmem

/-- Attempt 1 throws, attempt 2 produces an image that verifies. -/
def envC7 : GenEnv :=
  ⟨true, .resolved "img", false,
    fun k => if k = 1 then .thrown "boom" else .response (some [partWith "OK"]),
    fun _ => true⟩

/-- Witness for C7: the run returns attempt 2's image. -/
theorem claim_C7_short_circuit_on_success_witness :
    (generatePlate envC7 Mode.replace true).1 = .image "data:image/png;base64,OK" :=
  (claim_C7_short_circuit_on_success envC7 Mode.replace true "img" 2
    "data:image/png;base64,OK" rfl rfl rfl (by omega) (by omega)
    (by intro j h1 h2; interval_cases j; rfl) rfl rfl).1

/-- C9: every image `generatePlate` returns — verified or best-effort — is a
data URI whose declared media type is the hard-coded `image/png`, whatever
media type the model attached to its inline payload. -/
theorem claim_C9_png_media_type (env : GenEnv) (mode : Mode)
    (skipDetection : Bool) (url : String) :
    (generatePlate env mode skipDetection).1 = .image url →
    ∃ rest, url = "data:image/png;base64," ++ rest := by
  intro h
  rcases generatePlate_fst_cases env mode skipDetection with hc | hc | ⟨m, hc⟩ | hc
  · rw [hc] at h
    exact attemptLoop_image_shape env MAX_RETRIES 1 none none
      (by intro v hv; cases hv) url h
  · rw [hc] at h; cases h
  · rw [hc] at h; cases h
  · rw [hc] at h; cases h

/-- The model labels its payload `image/webp`; verification succeeds. -/
def envC9 : GenEnv :=
  ⟨true, .resolved "img", false,
    fun _ => .response (some [ResponsePart.mk (some (InlineData.mk "PAYLOAD" "image/webp"))]),
    fun _ => true⟩

/-- Witness for C9: the returned URL is PNG-tagged despite the `image/webp`
label on the payload. -/
theorem claim_C9_png_media_type_witness :
    ∃ rest, "data:image/png;base64,PAYLOAD" = "data:image/png;base64," ++ rest :=
  claim_C9_png_media_type envC9 Mode.replace true "data:image/png;base64,PAYLOAD" (by decide)

/-- The empty pattern is a substring of every string (`s.includes('')` is
always true in JavaScript). -/
lemma strIncludes_empty_pattern (s : String) : strIncludes s "" = true := by
  unfold strIncludes
  apply decide_eq_true
  exact ⟨[], s.toList, by simp⟩

/-- A successful verification call with an expected text that normalizes to
the empty string returns true, whatever the model answered. -/
lemma verify_empty_expected (t : Option String) (expected : String)
    (h : cleanText expected = "") :
    verifyPlateContent (.success t) expected = true := by
  unfold verifyPlateContent
  dsimp only
  rw [h, strIncludes_empty_pattern]
  simp

/-- C10: an expected plate text with no ASCII letter or digit normalizes to
the empty string, so every successful verification call returns true; in
`generatePlate` the first produced image is therefore treated as verified
and returned. -/
theorem claim_C10_empty_expected_always_verifies :
    (∀ (t : Option String) (expected : String), cleanText expected = "" →
      verifyPlateContent (.success t) expected = true) ∧
    (∀ (env : GenEnv) (mode : Mode) (skipDetection : Bool) (s expected : String)
      (ocr : String → CallResult) (k : Nat) (u : String) (t : Option String),
      env.hasApiKey = true →
      env.preprocessResult = .resolved s →
      detectionAborts env mode skipDetection = false →
      env.verifyResult = (fun v => verifyPlateContent (ocr v) expected) →
      cleanText expected = "" →
      1 ≤ k → k ≤ 4 →
      (∀ j, 1 ≤ j → j < k → attemptProduces env j = none) →
      attemptProduces env k = some u →
      ocr u = .success t →
      (generatePlate env mode skipDetection).1 = .image u) := by
  refine ⟨verify_empty_expected, ?_⟩
  intro env mode skipDetection s expected ocr k u t hkey hpre habort hv hclean hk1 hk4
    hnone hprod hocr
  have hver : env.verifyResult u = true := by
    rw [hv]
    dsimp only
    rw [hocr]
    exact verify_empty_expected t expected hclean
  have hfail : ∀ j, 1 ≤ j → j < k → attemptFailed env j = true := by
    intro j h1 h2
    unfold attemptFailed
    rw [hnone j h1 h2]
  obtain ⟨h1, -⟩ := generatePlate_runs_loop env mode skipDetection s hkey hpre habort
  obtain ⟨hr, -⟩ := attemptLoop_first_success env k u hprod hver MAX_RETRIES 1 none none
    hk1 (by unfold MAX_RETRIES; omega) hfail
  rw [h1]
  exact hr

/-- A transcription oracle that always answers some unrelated text. -/
def ocrC10 : String → CallResult := fun _ => .success (some "WHATEVER")

/-- Attempt 1's response has no parts; attempt 2 produces an image; the
verifier judges against the expected text `"-!-"`. -/
def envC10 : GenEnv :=
  ⟨true, .resolved "img", false,
    fun k => if k = 1 then .response none else .response (some [partWith "IMG"]),
    fun v => verifyPlateContent (ocrC10 v) "-!-"⟩

/-- Witness for C10: `"-!-"` normalizes to the empty string, verification
always passes, and the first produced image (attempt 2's) is returned. -/
theorem claim_C10_empty_expected_always_verifies_witness :
    verifyPlateContent (.success (some "ANY TEXT")) "-!-" = true ∧
    (generatePlate envC10 Mode.replace true).1 = .image "data:image/png;base64,IMG" :=
  ⟨claim_C10_empty_expected_always_verifies.1 (some "ANY TEXT") "-!-" (by decide),
    claim_C10_empty_expected_always_verifies.2 envC10 Mode.replace true "img" "-!-"
      ocrC10 2 "data:image/png;base64,IMG" (some "WHATEVER")
      rfl rfl rfl rfl (by decide) (by omega) (by omega)
      (by intro j h1 h2; interval_cases j; rfl) rfl rfl⟩

/-- Counterexample for C1 as stated.  First conjunct: the claim asserts
`verify(image, "ABC1234")` is true when the model answers `"AB1234"`, but
the code returns false — `"AB1234"` is not a contiguous substring of
`"ABC1234"` in either direction.  Second and third conjuncts: at answer
`"ABCD"` against expected `"ABCDE"` the claim's rule ("at least 80% of the
expected length") holds — containment plus `5·4 ≥ 4·5` — yet the code
returns false, because it requires *strictly more* than 80%
(`ocrText.length > expected.length * 0.8`). -/
theorem claim_C1_counterexample :
    verifyPlateContent (.success (some "AB1234")) "ABC1234" = false ∧
    verifyPlateContent (.success (some "ABCD")) "ABCDE" = false ∧
    ((cleanText "ABCDE").toList <:+: (cleanText "ABCD").toList ∨
      ((cleanText "ABCD").toList <:+: (cleanText "ABCDE").toList ∧
        5 * (cleanText "ABCD").length ≥ 4 * (cleanText "ABCDE").length)) := by
  refine ⟨by decide, by decide, by decide⟩

/-- C1 (amended): after normalizing both strings (delete every character
that is not an ASCII letter or digit, uppercase), a successful verification
returns true iff the observed text contains the expected text as a
substring, or the expected text contains the observed text as a substring
and the observed length is *strictly greater* than 80% of the expected
length; in particular `verify(image, "ABC1234")` is true when the model
answers `"abc-1234"` and false when it answers `"AB1234"`. -/
theorem claim_C1_verify_match_rule :
    (∀ (answer expected : String),
      verifyPlateContent (.success (some answer)) expected = true ↔
        ((cleanText expected).toList <:+: (cleanText answer).toList ∨
          ((cleanText answer).toList <:+: (cleanText expected).toList ∧
            5 * (cleanText answer).length > 4 * (cleanText expected).length))) ∧
    verifyPlateContent (.success (some "abc-1234")) "ABC1234" = true ∧
    verifyPlateContent (.success (some "AB1234")) "ABC1234" = false := by
  refine ⟨?_, by decide, by decide⟩
  intro answer expected
  unfold verifyPlateContent strIncludes
  simp

/-- C8: the plate-presence detector never throws to its caller — a failed
call returns false — and on a successful call it returns true exactly when
the trimmed, uppercased response text contains `"YES"` as a substring (an
absent response text is judged false). -/
theorem claim_C8_detector_contract :
    (∀ m, checkForExistingPlate (.failure m) = false) ∧
    (∀ t : String, checkForExistingPlate (.success (some t)) = true ↔
      "YES".toList <:+: (jsToUpper (jsTrim t)).toList) ∧
    checkForExistingPlate (.success none) = false := by
  refine ⟨fun m => rfl, ?_, by decide⟩
  intro t
  unfold checkForExistingPlate strIncludes
  simp
